import Mathlib

/- Verification development for cli-edit-anymemo (add-terms.py): a shallow
embedding of the interactive bulk-add tool for AnyMemo SQLite databases,
together with proofs about its conflict-resolution decision procedure, its
prompt loop, and its persistence behaviour. -/

/-- Python str.strip on the underlying character list: whitespace is removed
from both ends. -/
def pstripList (l : List Char) : List Char :=
  ((l.dropWhile Char.isWhitespace).reverse.dropWhile Char.isWhitespace).reverse

/-- Python str.strip. -/
def pstrip (s : String) : String := ⟨pstripList s.data⟩

/-- Python str.lower, applied per character. -/
def plower (s : String) : String := ⟨s.data.map Char.toLower⟩

/-- SQLite trim(x): removes space characters from both ends. -/
def sqlTrimList (l : List Char) : List Char :=
  ((l.dropWhile (· == ' ')).reverse.dropWhile (· == ' ')).reverse

/-- SQLite trim on strings. -/
def sqlTrim (s : String) : String := ⟨sqlTrimList s.data⟩

/-- Python truthiness of a string value. -/
def strTruthy (s : String) : Bool := s != ""

/-- Python truthiness of a value that is either None or a string. -/
def optStrTruthy : Option String → Bool
  | none => false
  | some s => s != ""

/-- One event on standard input: a text line, Ctrl+D (end of input) or
Ctrl+C (keyboard interrupt). -/
inductive InputLine
  | text (s : String)
  | ctrlD
  | ctrlC
deriving DecidableEq, Repr

/-- The interactive console: the remaining standard input and the prompts and
messages printed so far. -/
structure Console where
  stdin : List InputLine
  prompts : List String
deriving DecidableEq, Repr

/-- Result of running a fragment of Python code: a value, or a propagating
EOFError, or a propagating KeyboardInterrupt. -/
inductive PyResult (α : Type) where
  | ok (a : α)
  | eofErr
  | intrErr
deriving DecidableEq, Repr

/-- Python input(prompt): prints the prompt, then reads one line; raises
EOFError at end of input or Ctrl+D, KeyboardInterrupt at Ctrl+C. -/
def pyInput (prompt : String) (c : Console) : PyResult String × Console :=
  match c.stdin with
  | [] => (.eofErr, { c with prompts := c.prompts ++ [prompt] })
  | .text s :: rest => (.ok s, { stdin := rest, prompts := c.prompts ++ [prompt] })
  | .ctrlD :: rest => (.eofErr, { stdin := rest, prompts := c.prompts ++ [prompt] })
  | .ctrlC :: rest => (.intrErr, { stdin := rest, prompts := c.prompts ++ [prompt] })

/-- add-terms.py line 47: EXISTING_ASK, EXISTING_SKIP, EXISTING_ADD = range(3). -/
inductive WhenExisting
  | EXISTING_ASK
  | EXISTING_SKIP
  | EXISTING_ADD
deriving DecidableEq, Repr

/-- The test performed by confirm (add-terms.py lines 74-78) on the line read
from the console: strip, lowercase, and compare with "y" and "yes". -/
def yes_like (s : String) : Bool :=
  plower (pstrip s) == "y" || plower (pstrip s) == "yes"

/-- add-terms.py lines 73-78: confirm(question) shows the question with a
" [y/n] " suffix and returns True exactly when the stripped, lowercased reply
is "y" or "yes". -/
def confirm (question : String) (c : Console) : PyResult Bool × Console :=
  match pyInput (question ++ " [y/n] ") c with
  | (.ok s, c₂) => (.ok (yes_like s), c₂)
  | (.eofErr, c₂) => (.eofErr, c₂)
  | (.intrErr, c₂) => (.intrErr, c₂)

/-- add-terms.py lines 81-87: the conflict-resolution decision procedure.
The Python function is duck-typed in its return_value argument, so the
embedding takes the Python truthiness test for α as an explicit argument.
A returned value of some rv models Python returning return_value, none models
the implicit return None. -/
def check_existing {α : Type} (msg : String) (ex : Bool) (return_value : α)
    (truthy : α → Bool) (when_existing : WhenExisting) (c : Console) :
    PyResult (Option α) × Console :=
  if ex && when_existing != .EXISTING_ADD then
    if when_existing == .EXISTING_ASK then
      match confirm msg c with
      | (.ok b, c₂) => if b then (.ok (some return_value), c₂) else (.ok none, c₂)
      | (.eofErr, c₂) => (.eofErr, c₂)
      | (.intrErr, c₂) => (.intrErr, c₂)
    else (.ok none, c)
  else if truthy return_value then (.ok (some return_value), c)
  else (.ok none, c)

/-- A row of the dict_tbl table: a (question, answer, category) triple. The
identity primary key is the row's position in the list. -/
structure DictRow where
  question : String
  answer : String
  category : String
deriving DecidableEq, Repr

/-- A row of the learn_tbl scheduling table (the columns written by
add-terms.py lines 195-200). -/
structure LearnRow where
  date_learn : String
  interval : Nat
  grade : Nat
  easiness : Rat
  acq_reps : Nat
  ret_reps : Nat
  lapses : Nat
  acq_reps_since_lapse : Nat
  ret_reps_since_lapse : Nat
deriving DecidableEq, Repr

/-- The fixed-default scheduling record inserted for every entry
(add-terms.py line 200). -/
def defaultLearnRow : LearnRow :=
  { date_learn := "2010-01-01", interval := 0, grade := 0, easiness := 2.5,
    acq_reps := 0, ret_reps := 0, lapses := 0,
    acq_reps_since_lapse := 0, ret_reps_since_lapse := 0 }

/-- The two tables of the AnyMemo SQLite database. -/
structure Database where
  dict_tbl : List DictRow
  learn_tbl : List LearnRow
deriving DecidableEq, Repr

/-- SELECT answer FROM dict_tbl WHERE trim(question)=? (add-terms.py lines
92-94). A SELECT returns the database unchanged together with the result
rows. -/
def dbSelectAnswersByTrimQuestion (db : Database) (q : String) :
    Database × List String :=
  (db, (db.dict_tbl.filter (fun r => sqlTrim r.question == q)).map (·.answer))

/-- SELECT question FROM dict_tbl WHERE trim(answer)=? (add-terms.py lines
110-112). -/
def dbSelectQuestionsByTrimAnswer (db : Database) (a : String) :
    Database × List String :=
  (db, (db.dict_tbl.filter (fun r => sqlTrim r.answer == a)).map (·.question))

/-- SELECT count(*) FROM dict_tbl WHERE category=? (add-terms.py lines
136-139). A None parameter is bound as SQL NULL, and category=NULL never
holds, so the count is then 0. -/
def dbCountCategory (db : Database) (c : Option String) : Database × Nat :=
  match c with
  | none => (db, 0)
  | some s => (db, (db.dict_tbl.filter (fun r => r.category == s)).length)

/-- SELECT DISTINCT category FROM dict_tbl (add-terms.py line 56); the
distinct set is modelled with List.dedup. -/
def dbSelectDistinctCategories (db : Database) : Database × List String :=
  (db, (db.dict_tbl.map (·.category)).dedup)

/-- INSERT INTO dict_tbl (question, answer, category) VALUES (?, ?, ?)
(add-terms.py lines 191-194). -/
def dbInsertDict (db : Database) (r : DictRow) : Database :=
  { db with dict_tbl := db.dict_tbl ++ [r] }

/-- INSERT INTO learn_tbl ... (add-terms.py lines 195-200). -/
def dbInsertLearn (db : Database) (r : LearnRow) : Database :=
  { db with learn_tbl := db.learn_tbl ++ [r] }

/-- add-terms.py lines 52-70: the category completer's state is its list of
category names. -/
structure CategoryCompleter where
  categories : List String
deriving DecidableEq, Repr

/-- CategoryCompleter.__init__ (lines 55-59): load the distinct categories. -/
def CategoryCompleter.init (db : Database) : CategoryCompleter :=
  ⟨(dbSelectDistinctCategories db).2⟩

/-- CategoryCompleter.complete (lines 61-66): the state-th option whose name
starts with the given text, if any. -/
def CategoryCompleter.complete (cc : CategoryCompleter) (text : String)
    (state : Nat) : Option String :=
  (cc.categories.filter (fun c => c.data.take text.data.length == text.data)).get? state

/-- CategoryCompleter.add_category (lines 68-70): append the new category when
it is non-empty and not already present. -/
def CategoryCompleter.add_category (cc : CategoryCompleter)
    (new_category : String) : CategoryCompleter :=
  if new_category != "" && !cc.categories.contains new_category then
    ⟨cc.categories ++ [new_category]⟩
  else cc

/-- A single-quote character, written via its code point. -/
def quot1 : String := String.singleton (Char.ofNat 39)

/-- The confirmation message built by ask_for_question (lines 99-102); it
quotes the candidate question and the answer of the first matching row. -/
def question_msg (question : String) (rows : List String) : String :=
  "Question " ++ quot1 ++ question ++ quot1
    ++ " seems to exist already, with answer " ++ quot1 ++ rows.headD "" ++ quot1
    ++ ". Proceed?"

/-- The confirmation message built by ask_for_answer (lines 117-120). -/
def answer_msg (answer : String) (rows : List String) : String :=
  "Answer " ++ quot1 ++ answer ++ quot1
    ++ " seems to exist already, with question " ++ quot1 ++ rows.headD "" ++ quot1
    ++ ". Proceed?"

/-- Python str(x) for a value that is a string or None. -/
def pyStrOfOpt : Option String → String
  | none => "None"
  | some s => s

/-- The confirmation message built by ask_for_category (lines 141-142). -/
def category_msg (category : Option String) : String :=
  "Category " ++ quot1 ++ pyStrOfOpt category ++ quot1
    ++ " does not seem to exist. Proceed?"

/-- The category prompt (lines 129-131), showing the default when the
previous category is truthy. -/
def category_prompt (last_category : Option String) : String :=
  "Category"
    ++ (if optStrTruthy last_category
        then " (default is " ++ last_category.getD "" ++ ")" else "")
    ++ ": "

/-- The candidate category (lines 129-134): the stripped input line, or the
previous cycle's category when the stripped input is empty. -/
def category_candidate (s : String) (last_category : Option String) :
    Option String :=
  if pstrip s == "" then last_category else some (pstrip s)

/-- add-terms.py lines 90-105: ask_for_question. Reads a line, strips it,
looks the question up and runs the decision procedure. The database is
threaded through to expose that only SELECT statements are issued. -/
def ask_for_question (db : Database) (when_existing : WhenExisting)
    (c : Console) : PyResult (Option String) × Database × Console :=
  match pyInput "Question: " c with
  | (.eofErr, c₁) => (.eofErr, db, c₁)
  | (.intrErr, c₁) => (.intrErr, db, c₁)
  | (.ok s, c₁) =>
    let question := pstrip s
    match dbSelectAnswersByTrimQuestion db question with
    | (db₁, rows) =>
      match check_existing (question_msg question rows) (!rows.isEmpty)
          question strTruthy when_existing c₁ with
      | (r, c₂) => (r, db₁, c₂)

/-- add-terms.py lines 108-123: ask_for_answer. -/
def ask_for_answer (db : Database) (when_existing : WhenExisting)
    (c : Console) : PyResult (Option String) × Database × Console :=
  match pyInput "Answer: " c with
  | (.eofErr, c₁) => (.eofErr, db, c₁)
  | (.intrErr, c₁) => (.intrErr, db, c₁)
  | (.ok s, c₁) =>
    let answer := pstrip s
    match dbSelectQuestionsByTrimAnswer db answer with
    | (db₁, rows) =>
      match check_existing (answer_msg answer rows) (!rows.isEmpty)
          answer strTruthy when_existing c₁ with
      | (r, c₂) => (r, db₁, c₂)

/-- add-terms.py lines 126-148: ask_for_category. Reads a line, substitutes
the previous category on empty input, counts entries with that category and
runs the decision procedure; on acceptance the category is added to the
completer and returned. -/
def ask_for_category (db : Database) (completer : CategoryCompleter)
    (when_existing : WhenExisting) (last_category : Option String)
    (c : Console) :
    PyResult (Option String) × Database × CategoryCompleter × Console :=
  match pyInput (category_prompt last_category) c with
  | (.eofErr, c₁) => (.eofErr, db, completer, c₁)
  | (.intrErr, c₁) => (.intrErr, db, completer, c₁)
  | (.ok s, c₁) =>
    let category := category_candidate s last_category
    match dbCountCategory db category with
    | (db₁, count) =>
      match check_existing (category_msg category) (count == 0) category
          optStrTruthy when_existing c₁ with
      | (.eofErr, c₂) => (.eofErr, db₁, completer, c₂)
      | (.intrErr, c₂) => (.intrErr, db₁, completer, c₂)
      | (.ok r, c₂) =>
        match r with
        | some (some catS) =>
          if catS == "" then (.ok none, db₁, completer, c₂)
          else (.ok (some catS), db₁, completer.add_category catS, c₂)
        | _ => (.ok none, db₁, completer, c₂)

/-- The mutable state of one ask_for_entries session: the connection's view of
the database (with uncommitted writes), the last accepted category, the
completer, the console, and — as instrumentation — the list of triples
accepted (inserted) so far in this session. -/
structure LoopState where
  db : Database
  last_category : Option String
  completer : CategoryCompleter
  console : Console
  accepted : List DictRow
deriving DecidableEq, Repr

/-- Why the while-loop in ask_for_entries stopped: EOFError or
KeyboardInterrupt. -/
inductive EndSignal
  | eofEnd
  | intrEnd
deriving DecidableEq, Repr

/-- Outcome of running the loop with fuel: one of the two stop signals, or the
fuel ran out before the input was exhausted. -/
inductive SessionEnd
  | eofEnd
  | intrEnd
  | fuelOut
deriving DecidableEq, Repr

/-- Result of one iteration of the while-loop body (add-terms.py lines
169-203): either continue with an updated state, or stop with a signal. -/
inductive StepResult
  | next (st : LoopState)
  | halt (e : EndSignal) (st : LoopState)
deriving DecidableEq, Repr

/-- One iteration of the while-loop body of ask_for_entries (lines 169-203):
ask for the question, answer and category in turn, restarting on a falsy
value, and on success insert the entry plus its default scheduling record. -/
def session_step (we : WhenExisting) (st : LoopState) : StepResult :=
  match ask_for_question st.db we st.console with
  | (.eofErr, _, c₁) => .halt .eofEnd { st with console := c₁ }
  | (.intrErr, _, c₁) => .halt .intrEnd { st with console := c₁ }
  | (.ok qv, db₁, c₁) =>
    match qv with
    | none => .next { st with db := db₁, console := c₁ }
    | some q =>
      if q == "" then .next { st with db := db₁, console := c₁ }
      else
        match ask_for_answer db₁ we c₁ with
        | (.eofErr, _, c₂) => .halt .eofEnd { st with console := c₂ }
        | (.intrErr, _, c₂) => .halt .intrEnd { st with console := c₂ }
        | (.ok av, db₂, c₂) =>
          match av with
          | none => .next { st with db := db₂, console := c₂ }
          | some a =>
            if a == "" then .next { st with db := db₂, console := c₂ }
            else
              match ask_for_category db₂ st.completer we st.last_category c₂ with
              | (.eofErr, _, comp₃, c₃) =>
                .halt .eofEnd { st with completer := comp₃, console := c₃ }
              | (.intrErr, _, comp₃, c₃) =>
                .halt .intrEnd { st with completer := comp₃, console := c₃ }
              | (.ok cv, db₃, comp₃, c₃) =>
                match cv with
                | none => .next { st with db := db₃, completer := comp₃, console := c₃ }
                | some cat =>
                  if cat == "" then
                    .next { st with db := db₃, completer := comp₃, console := c₃ }
                  else
                    let row : DictRow := ⟨q, a, cat⟩
                    .next { db := dbInsertLearn (dbInsertDict db₃ row) defaultLearnRow,
                            last_category := some cat,
                            completer := comp₃,
                            console := c₃,
                            accepted := st.accepted ++ [row] }

/-- The while True loop of ask_for_entries, with fuel to bound the number of
iterations. -/
def session_loop (we : WhenExisting) : Nat → LoopState → SessionEnd × LoopState
  | 0, st => (.fuelOut, st)
  | fuel + 1, st =>
    match session_step we st with
    | .next st₂ => session_loop we fuel st₂
    | .halt .eofEnd st₂ => (.eofEnd, st₂)
    | .halt .intrEnd st₂ => (.intrEnd, st₂)

/-- The state at the start of ask_for_entries (lines 155-158): the session's
view of the database is the on-disk database, no last category, completer
initialised from the distinct stored categories, nothing accepted yet. -/
def init_state (disk : Database) (c : Console) : LoopState :=
  { db := disk, last_category := none,
    completer := CategoryCompleter.init disk, console := c, accepted := [] }

/-- Final outcome of ask_for_entries: how the session ended, the database
durably on disk after the connection is closed, and the final loop state. -/
structure EntriesResult where
  outcome : SessionEnd
  disk : Database
  state : LoopState
deriving DecidableEq, Repr

/-- add-terms.py lines 151-211: ask_for_entries. A clean EOFError commits the
session's writes (conn.commit()), so the connection's view becomes the disk
database; a KeyboardInterrupt skips the commit, so closing the connection
discards the session's writes and the disk database is unchanged. -/
def ask_for_entries (fuel : Nat) (disk : Database) (we : WhenExisting)
    (c : Console) : EntriesResult :=
  match session_loop we fuel (init_state disk c) with
  | (.eofEnd, st) => ⟨.eofEnd, st.db, st⟩
  | (.intrEnd, st) => ⟨.intrEnd, disk, st⟩
  | (.fuelOut, st) => ⟨.fuelOut, disk, st⟩

/-- A command-line option recognised by the script (add-terms.py lines
219-239). -/
inductive CliOption
  | database (path : String)
  | force
  | skip_existing
  | verbose
deriving DecidableEq, Repr

/-- The option values produced by parsing (dest fields of the OptionParser). -/
structure Opts where
  database : String
  when_existing : WhenExisting
  verbose : Bool
deriving DecidableEq, Repr

/-- The default database path (add-terms.py line 43). -/
def DEFAULT_DATABASE : String := "mydatabase.xml.db"

/-- Modelled from the spec: optparse's processing of the options declared at
add-terms.py lines 219-239 (the optparse library itself is not part of this
repository). Options are applied to the dest fields left to right, starting
from the declared defaults; the database option stores its argument, -f
(force) stores EXISTING_ADD and -s (skip-existing) stores EXISTING_SKIP in
the shared when_existing dest, and -v (verbose) stores True. -/
def parse_args (args : List CliOption) : Opts :=
  args.foldl
    (fun o a =>
      match a with
      | .database p => { o with database := p }
      | .force => { o with when_existing := .EXISTING_ADD }
      | .skip_existing => { o with when_existing := .EXISTING_SKIP }
      | .verbose => { o with verbose := true })
    { database := DEFAULT_DATABASE, when_existing := .EXISTING_ASK,
      verbose := false }

/-- The conflict mode contributed by one command-line option, if any. -/
def modeOf : CliOption → Option WhenExisting
  | .force => some .EXISTING_ADD
  | .skip_existing => some .EXISTING_SKIP
  | _ => none

/-- The mode demanded by the claim: that of the last-specified mode flag, ASK
when no mode flag is given. -/
def lastSpecifiedMode (args : List CliOption) : WhenExisting :=
  (args.filterMap modeOf).getLastD .EXISTING_ASK

/-- A string with no leading or trailing whitespace character. -/
def noEdgeWS (s : String) : Bool :=
  !(s.data.head?.any Char.isWhitespace) && !(s.data.getLast?.any Char.isWhitespace)

/-- Session state before a fully accepted cycle, used by witnesses. -/
def w6st : LoopState :=
  ⟨⟨[], []⟩, none, ⟨[]⟩, ⟨[.text "q", .text "a", .text "c"], []⟩, []⟩

/-- Session state after that accepted cycle. -/
def w6st₂ : LoopState :=
  ⟨⟨[⟨"q", "a", "c"⟩], [defaultLearnRow]⟩, some "c", ⟨["c"]⟩,
   ⟨[], ["Question: ", "Answer: ", "Category: "]⟩, [⟨"q", "a", "c"⟩]⟩

/-- A one-row database used to exercise the duplicate check. -/
def w7db : Database := ⟨[⟨"toe", "un orteil", "French"⟩], [defaultLearnRow]⟩

/-- Database for the C4 counterexample: one existing entry with category
"cat1". -/
def c4_db : Database := ⟨[⟨"q0", "a0", "cat1"⟩], [defaultLearnRow]⟩

/-- Input script for the C4 counterexample, under policy ASK. Cycle 1 leaves
the category blank with no previous category (the next line "y" is consumed by
the resulting confirmation prompt); cycle 2 accepts category "cat1"; cycle 3
leaves the category blank again, which silently reuses "cat1". -/
def c4_script : List InputLine :=
  [.text "q1", .text "a1", .text "", .text "y",
   .text "q2", .text "a2", .text "cat1",
   .text "q3", .text "a3", .text "",
   .ctrlD]

/-- Loop state with only a blank question line pending. -/
def w4st1 : LoopState := ⟨⟨[], []⟩, none, ⟨[]⟩, ⟨[.text " "], []⟩, []⟩

/-- Loop state with a question and then a blank answer line pending. -/
def w4st2 : LoopState :=
  ⟨⟨[], []⟩, none, ⟨[]⟩, ⟨[.text "q", .text " "], []⟩, []⟩

/-- Loop state with a question, an answer and a blank category line pending. -/
def w4st3 : LoopState :=
  ⟨⟨[], []⟩, none, ⟨[]⟩, ⟨[.text "q", .text "a", .text " "], []⟩, []⟩

/-- The yes_like test succeeds exactly on stripped, lowercased "y" or "yes". -/
theorem yes_like_iff (s : String) :
    yes_like s = true ↔ plower (pstrip s) = "y" ∨ plower (pstrip s) = "yes" := by
  simp [yes_like]

/-- C1: for policy ASK with an existing conflict, check_existing emits the
yes/no confirmation prompt, consumes exactly one input line, and accepts the
candidate if and only if that line, after stripping whitespace and
lowercasing, is exactly "y" or "yes". -/
theorem ask_with_conflict_accepts_iff_yes {α : Type} (msg : String) (rv : α)
    (truthy : α → Bool) (s : String) (rest : List InputLine) (pr : List String) :
    (check_existing msg true rv truthy .EXISTING_ASK ⟨.text s :: rest, pr⟩ =
      ((if yes_like s then PyResult.ok (some rv) else PyResult.ok none),
        ⟨rest, pr ++ [msg ++ " [y/n] "]⟩)) ∧
    ((check_existing msg true rv truthy .EXISTING_ASK ⟨.text s :: rest, pr⟩).1 =
        PyResult.ok (some rv) ↔
      (plower (pstrip s) = "y" ∨ plower (pstrip s) = "yes")) := by
  have hmain : check_existing msg true rv truthy .EXISTING_ASK ⟨.text s :: rest, pr⟩ =
      ((if yes_like s then PyResult.ok (some rv) else PyResult.ok none),
        ⟨rest, pr ++ [msg ++ " [y/n] "]⟩) := by
    cases hb : yes_like s <;> simp [check_existing, confirm, pyInput, hb]
  refine ⟨hmain, ?_⟩
  rw [hmain, ← yes_like_iff s]
  cases hb : yes_like s <;> simp [hb]

/-- C2: for policy ADD, any non-empty candidate is accepted whether or not a
conflict exists, and the console is left untouched: no confirmation prompt is
shown and no input is consumed. -/
theorem add_accepts_nonempty (msg : String) (ex : Bool) (rv : String)
    (c : Console) (h : rv ≠ "") :
    check_existing msg ex rv strTruthy .EXISTING_ADD c = (.ok (some rv), c) := by
  simp [check_existing, strTruthy, h]

/-- Witness for add_accepts_nonempty at a concrete conflicting candidate. -/
theorem add_accepts_nonempty_witness :
    check_existing "m" true "hi" strTruthy .EXISTING_ADD ⟨[], []⟩ =
      (.ok (some "hi"), ⟨[], []⟩) :=
  add_accepts_nonempty "m" true "hi" ⟨[], []⟩ (by decide)

/-- C3: for policy SKIP, a candidate with an existing conflict is rejected
with the console untouched (no confirmation prompt, no input consumed), and a
non-empty candidate without a conflict is accepted, also without prompting. -/
theorem skip_rejects_conflicts (msg : String) (rv : String) (c : Console) :
    (check_existing msg true rv strTruthy .EXISTING_SKIP c = (.ok none, c)) ∧
    (rv ≠ "" →
      check_existing msg false rv strTruthy .EXISTING_SKIP c = (.ok (some rv), c)) := by
  constructor
  · simp [check_existing]
  · intro h
    simp [check_existing, strTruthy, h]

/-- Witness for skip_rejects_conflicts at concrete inputs. -/
theorem skip_rejects_conflicts_witness :
    (check_existing "m" true "toe" strTruthy .EXISTING_SKIP ⟨[], []⟩ =
      (.ok none, ⟨[], []⟩)) ∧
    (check_existing "m" false "foo" strTruthy .EXISTING_SKIP ⟨[], []⟩ =
      (.ok (some "foo"), ⟨[], []⟩)) :=
  ⟨(skip_rejects_conflicts "m" "toe" ⟨[], []⟩).1,
   (skip_rejects_conflicts "m" "foo" ⟨[], []⟩).2 (by decide)⟩

/-- The head of dropWhile p never satisfies p. -/
theorem head?_dropWhile_not {α : Type} (p : α → Bool) (l : List α) :
    ∀ a, (l.dropWhile p).head? = some a → p a = false := by
  induction l with
  | nil => intro a h; simp [List.dropWhile] at h
  | cons x xs ih =>
    intro a h
    rw [List.dropWhile_cons] at h
    by_cases hx : p x = true
    · rw [if_pos hx] at h
      exact ih a h
    · rw [if_neg hx] at h
      simp only [List.head?_cons, Option.some.injEq] at h
      subst h
      exact Bool.eq_false_iff.mpr hx

/-- When dropWhile p keeps anything, it keeps the last element. -/
theorem getLast?_dropWhile {α : Type} (p : α → Bool) (l : List α)
    (h : l.dropWhile p ≠ []) : (l.dropWhile p).getLast? = l.getLast? := by
  induction l with
  | nil => simp [List.dropWhile] at h
  | cons x xs ih =>
    rw [List.dropWhile_cons] at h ⊢
    by_cases hx : p x = true
    · rw [if_pos hx] at h ⊢
      have hxs : xs ≠ [] := by
        intro he
        subst he
        simp [List.dropWhile] at h
      rw [ih h]
      cases xs with
      | nil => exact absurd rfl hxs
      | cons y ys => rw [List.getLast?_cons_cons]
    · rw [if_neg hx]

/-- The first character surviving pstrip is not whitespace. -/
theorem pstripList_head_not_ws (l : List Char) :
    ∀ a, (pstripList l).head? = some a → a.isWhitespace = false := by
  intro a h
  unfold pstripList at h
  rw [List.head?_reverse] at h
  have hne : ((l.dropWhile Char.isWhitespace).reverse.dropWhile Char.isWhitespace) ≠ [] := by
    intro he
    rw [he] at h
    simp at h
  rw [getLast?_dropWhile _ _ hne, List.getLast?_reverse] at h
  exact head?_dropWhile_not Char.isWhitespace l a h

/-- The last character surviving pstrip is not whitespace. -/
theorem pstripList_getLast_not_ws (l : List Char) :
    ∀ a, (pstripList l).getLast? = some a → a.isWhitespace = false := by
  intro a h
  unfold pstripList at h
  rw [List.getLast?_reverse] at h
  exact head?_dropWhile_not Char.isWhitespace _ a h

/-- pstrip always produces a string with no leading or trailing whitespace. -/
theorem noEdgeWS_pstrip (s : String) : noEdgeWS (pstrip s) = true := by
  unfold noEdgeWS pstrip
  simp only [Bool.and_eq_true, Bool.not_eq_true']
  constructor
  · cases hh : (pstripList s.data).head? with
    | none => rfl
    | some a => simpa using pstripList_head_not_ws s.data a hh
  · cases hl : (pstripList s.data).getLast? with
    | none => rfl
    | some a => simpa using pstripList_getLast_not_ws s.data a hl

/-- Shared reduction: policy ASK with a conflict consumes one text line as the
confirmation and answers according to yes_like. -/
theorem check_existing_ask_conflict_run {α : Type} (msg : String) (rv : α)
    (truthy : α → Bool) (s : String) (rest : List InputLine) (pr : List String) :
    check_existing msg true rv truthy .EXISTING_ASK ⟨.text s :: rest, pr⟩ =
      ((if yes_like s then PyResult.ok (some rv) else PyResult.ok none),
        ⟨rest, pr ++ [msg ++ " [y/n] "]⟩) := by
  cases hb : yes_like s <;> simp [check_existing, confirm, pyInput, hb]

/-- check_existing can only hand back the candidate itself or None. -/
theorem check_existing_ok_shape {α : Type} {msg : String} {ex : Bool} {rv : α}
    {truthy : α → Bool} {we : WhenExisting} {c : Console}
    {r : Option α} {c₂ : Console}
    (h : check_existing msg ex rv truthy we c = (.ok r, c₂)) :
    r = some rv ∨ r = none := by
  unfold check_existing at h
  split at h
  · split at h
    · split at h
      · split at h <;> (cases h; simp)
      · cases h
      · cases h
    · cases h
      simp
  · split at h
    · cases h
      simp
    · cases h
      simp

/-- ask_for_question issues only a SELECT: the database is unchanged. -/
theorem ask_for_question_db_frame (db : Database) (we : WhenExisting)
    (c : Console) : (ask_for_question db we c).2.1 = db := by
  unfold ask_for_question
  split
  · rfl
  · rfl
  · simp only [dbSelectAnswersByTrimQuestion]

/-- ask_for_answer issues only a SELECT: the database is unchanged. -/
theorem ask_for_answer_db_frame (db : Database) (we : WhenExisting)
    (c : Console) : (ask_for_answer db we c).2.1 = db := by
  unfold ask_for_answer
  split
  · rfl
  · rfl
  · simp only [dbSelectQuestionsByTrimAnswer]

/-- A count query returns the database unchanged. -/
theorem dbCountCategory_fst (db : Database) (c : Option String) :
    (dbCountCategory db c).1 = db := by
  cases c <;> rfl

/-- ask_for_category issues only SELECT count(*): the database is unchanged. -/
theorem ask_for_category_db_frame (db : Database) (comp : CategoryCompleter)
    (we : WhenExisting) (lc : Option String) (c : Console) :
    (ask_for_category db comp we lc c).2.1 = db := by
  unfold ask_for_category
  rcases hpi : pyInput (category_prompt lc) c with ⟨r₀, c₁⟩
  cases r₀ with
  | eofErr => simp [hpi]
  | intrErr => simp [hpi]
  | ok s =>
    simp only [hpi]
    rcases hdc : dbCountCategory db (category_candidate s lc) with ⟨db₁, count⟩
    have hdb : db₁ = db := by
      have h1 := dbCountCategory_fst db (category_candidate s lc)
      rw [hdc] at h1
      exact h1
    subst hdb
    rcases hce : check_existing (category_msg (category_candidate s lc))
        (count == 0) (category_candidate s lc) optStrTruthy we c₁ with ⟨r₁, c₂⟩
    cases r₁ with
    | eofErr => simp [hce]
    | intrErr => simp [hce]
    | ok r =>
      simp only [hce]
      cases r with
      | none => rfl
      | some cv =>
        cases cv with
        | none => rfl
        | some catS =>
          by_cases hc : (catS == "") = true
          · simp [hc]
          · simp [hc]

/-- A candidate category is the stripped input or the previous category. -/
theorem category_candidate_shape {s : String} {lc : Option String}
    {cat : String} (h : category_candidate s lc = some cat) :
    cat = pstrip s ∨ lc = some cat := by
  unfold category_candidate at h
  split at h
  · right
    exact h
  · left
    cases h
    rfl

/-- Projection form of check_existing_ok_shape. -/
theorem check_existing_fst_ok_shape {α : Type} {msg : String} {ex : Bool}
    {rv : α} {truthy : α → Bool} {we : WhenExisting} {c : Console}
    {r : Option α}
    (h : (check_existing msg ex rv truthy we c).1 = .ok r) :
    r = some rv ∨ r = none := by
  rcases hce : check_existing msg ex rv truthy we c with ⟨r₁, c₂⟩
  rw [hce] at h
  dsimp at h
  rw [h] at hce
  exact check_existing_ok_shape hce

/-- A value produced by ask_for_question is None or a stripped input line. -/
theorem ask_for_question_ok_shape {db : Database} {we : WhenExisting}
    {c : Console} {v : Option String} {db₁ : Database} {c₁ : Console}
    (h : ask_for_question db we c = (.ok v, db₁, c₁)) :
    v = none ∨ ∃ s, v = some (pstrip s) := by
  unfold ask_for_question at h
  split at h
  · simp at h
  · simp at h
  · rename_i s c' hpi
    dsimp only at h
    have h1 := congrArg Prod.fst h
    dsimp only at h1
    rcases check_existing_fst_ok_shape h1 with hs | hn
    · right
      exact ⟨s, hs⟩
    · left
      exact hn

/-- A value produced by ask_for_answer is None or a stripped input line. -/
theorem ask_for_answer_ok_shape {db : Database} {we : WhenExisting}
    {c : Console} {v : Option String} {db₁ : Database} {c₁ : Console}
    (h : ask_for_answer db we c = (.ok v, db₁, c₁)) :
    v = none ∨ ∃ s, v = some (pstrip s) := by
  unfold ask_for_answer at h
  split at h
  · simp at h
  · simp at h
  · rename_i s c' hpi
    dsimp only at h
    have h1 := congrArg Prod.fst h
    dsimp only at h1
    rcases check_existing_fst_ok_shape h1 with hs | hn
    · right
      exact ⟨s, hs⟩
    · left
      exact hn

/-- A value produced by ask_for_category is None, or a non-empty category that
is either a stripped input line or the previous cycle's category. -/
theorem ask_for_category_ok_shape {db : Database} {comp : CategoryCompleter}
    {we : WhenExisting} {lc : Option String} {c : Console} {v : Option String}
    {db₁ : Database} {comp₁ : CategoryCompleter} {c₁ : Console}
    (h : ask_for_category db comp we lc c = (.ok v, db₁, comp₁, c₁)) :
    v = none ∨ ∃ cat, v = some cat ∧ cat ≠ "" ∧
      ((∃ s, cat = pstrip s) ∨ lc = some cat) := by
  unfold ask_for_category at h
  split at h
  · simp at h
  · simp at h
  · rename_i s c' hpi
    dsimp only at h
    split at h
    · simp at h
    · simp at h
    · rename_i r c₂ hce
      split at h
      · rename_i catS
        split at h
        · cases h
          left
          rfl
        · rename_i hc
          cases h
          rcases check_existing_ok_shape hce with hs | hn
          · right
            refine ⟨catS, rfl, ?_, ?_⟩
            · intro he
              subst he
              simp at hc
            · have hcand : category_candidate s lc = some catS := by
                injection hs with h2
                exact h2.symm
              rcases category_candidate_shape hcand with h3 | h3
              · left
                exact ⟨s, h3⟩
              · right
                exact h3
          · cases hn
      · cases h
        left
        rfl

/-- When the loop body stops with a signal, the session state is unchanged
apart from the console. -/
theorem session_step_halt_frame {we : WhenExisting} {st : LoopState}
    {e : EndSignal} {st₂ : LoopState}
    (h : session_step we st = .halt e st₂) :
    st₂.db = st.db ∧ st₂.accepted = st.accepted ∧
      st₂.last_category = st.last_category := by
  unfold session_step at h
  repeat' split at h
  all_goals first
    | (cases h; exact ⟨rfl, rfl, rfl⟩)
    | simp at h

/-- One loop-body iteration either changes nothing but the console (a
restarted or rejected cycle), or accepts exactly one row: it appends the row
to dict_tbl together with a default scheduling record in learn_tbl, records it
as accepted, and sets the last category to the row's category. The accepted
row's question and answer are non-empty stripped input lines, and its category
is non-empty and is a stripped input line or the previous category. -/
theorem session_step_next_cases {we : WhenExisting} {st : LoopState}
    {st₂ : LoopState} (h : session_step we st = .next st₂) :
    (st₂.db = st.db ∧ st₂.accepted = st.accepted ∧
      st₂.last_category = st.last_category) ∨
    (∃ row, st₂.db = dbInsertLearn (dbInsertDict st.db row) defaultLearnRow ∧
      st₂.accepted = st.accepted ++ [row] ∧
      st₂.last_category = some row.category ∧
      (∃ s, row.question = pstrip s) ∧ row.question ≠ "" ∧
      (∃ s, row.answer = pstrip s) ∧ row.answer ≠ "" ∧
      row.category ≠ "" ∧
      ((∃ s, row.category = pstrip s) ∨ st.last_category = some row.category)) := by
  unfold session_step at h
  rcases hq : ask_for_question st.db we st.console with ⟨rq, dbq, cq⟩
  rw [hq] at h
  have hdbq : dbq = st.db := by
    have h0 := ask_for_question_db_frame st.db we st.console
    rw [hq] at h0
    exact h0
  cases rq with
  | eofErr => simp at h
  | intrErr => simp at h
  | ok qv =>
    cases qv with
    | none =>
      cases h
      left
      exact ⟨hdbq, rfl, rfl⟩
    | some q =>
      dsimp only at h
      split at h
      · cases h
        left
        exact ⟨hdbq, rfl, rfl⟩
      · rename_i hqe
        rcases ha : ask_for_answer dbq we cq with ⟨ra, dba, ca⟩
        rw [ha] at h
        have hdba : dba = st.db := by
          have h0 := ask_for_answer_db_frame dbq we cq
          rw [ha] at h0
          exact h0.trans hdbq
        cases ra with
        | eofErr => simp at h
        | intrErr => simp at h
        | ok av =>
          cases av with
          | none =>
            cases h
            left
            exact ⟨hdba, rfl, rfl⟩
          | some a =>
            dsimp only at h
            split at h
            · cases h
              left
              exact ⟨hdba, rfl, rfl⟩
            · rename_i hae
              rcases hc : ask_for_category dba st.completer we st.last_category ca
                with ⟨rc, dbc, compc, cc⟩
              rw [hc] at h
              have hdbc : dbc = st.db := by
                have h0 := ask_for_category_db_frame dba st.completer we
                  st.last_category ca
                rw [hc] at h0
                exact h0.trans hdba
              cases rc with
              | eofErr => simp at h
              | intrErr => simp at h
              | ok cv =>
                cases cv with
                | none =>
                  cases h
                  left
                  exact ⟨hdbc, rfl, rfl⟩
                | some cat =>
                  dsimp only at h
                  split at h
                  · cases h
                    left
                    exact ⟨hdbc, rfl, rfl⟩
                  · rename_i hce
                    cases h
                    right
                    refine ⟨⟨q, a, cat⟩, ?_, rfl, rfl, ?_, ?_, ?_, ?_, ?_, ?_⟩
                    · rw [hdbc]
                    · rcases ask_for_question_ok_shape hq with h0 | h0
                      · exact absurd h0 (by simp)
                      · rcases h0 with ⟨s, hs⟩
                        refine ⟨s, ?_⟩
                        injection hs
                    · simpa using hqe
                    · rcases ask_for_answer_ok_shape ha with h0 | h0
                      · exact absurd h0 (by simp)
                      · rcases h0 with ⟨s, hs⟩
                        refine ⟨s, ?_⟩
                        injection hs
                    · simpa using hae
                    · simpa using hce
                    · rcases ask_for_category_ok_shape hc with h0 | h0
                      · exact absurd h0 (by simp)
                      · rcases h0 with ⟨cat₂, hc2, _, hshape⟩
                        have hcc : cat₂ = cat := by
                          injection hc2 with h3
                          exact h3.symm
                        subst hcc
                        exact hshape

/-- The session database is always the initial database plus exactly the
accepted rows (and one default scheduling record per accepted row). -/
theorem session_loop_dbinv (we : WhenExisting) (fuel : Nat) (st : LoopState)
    (D₀ : List DictRow) (L₀ : List LearnRow)
    (h₁ : st.db.dict_tbl = D₀ ++ st.accepted)
    (h₂ : st.db.learn_tbl = L₀ ++ st.accepted.map (fun _ => defaultLearnRow)) :
    (session_loop we fuel st).2.db.dict_tbl
        = D₀ ++ (session_loop we fuel st).2.accepted ∧
    (session_loop we fuel st).2.db.learn_tbl
        = L₀ ++ (session_loop we fuel st).2.accepted.map (fun _ => defaultLearnRow) := by
  induction fuel generalizing st with
  | zero => exact ⟨h₁, h₂⟩
  | succ n ih =>
    unfold session_loop
    cases hstep : session_step we st with
    | next st₂ =>
      rcases session_step_next_cases hstep with ⟨hdb, hacc, _⟩ | ⟨row, hdb, hacc, _⟩
      · exact ih st₂ (by rw [hdb, hacc, h₁]) (by rw [hdb, hacc, h₂])
      · refine ih st₂ ?_ ?_
        · rw [hdb, hacc]
          show (st.db.dict_tbl ++ [row]) = D₀ ++ (st.accepted ++ [row])
          rw [h₁, List.append_assoc]
        · rw [hdb, hacc]
          show (st.db.learn_tbl ++ [defaultLearnRow])
              = L₀ ++ (st.accepted ++ [row]).map (fun _ => defaultLearnRow)
          rw [h₂, List.map_append, List.append_assoc]
          rfl
    | halt e st₂ =>
      rcases session_step_halt_frame hstep with ⟨hdb, hacc, _⟩
      cases e <;> exact ⟨by rw [hdb, hacc, h₁], by rw [hdb, hacc, h₂]⟩

/-- One loop-body iteration preserves the invariant that the last category and
all accepted rows are free of edge whitespace. -/
theorem session_step_preserves_stripped {we : WhenExisting} {st : LoopState}
    (hl : ∀ v, st.last_category = some v → noEdgeWS v = true)
    (ha : ∀ row ∈ st.accepted, noEdgeWS row.question = true ∧
      noEdgeWS row.answer = true ∧ noEdgeWS row.category = true) :
    (∀ st₂, session_step we st = .next st₂ →
      (∀ v, st₂.last_category = some v → noEdgeWS v = true) ∧
      (∀ row ∈ st₂.accepted, noEdgeWS row.question = true ∧
        noEdgeWS row.answer = true ∧ noEdgeWS row.category = true)) ∧
    (∀ e st₂, session_step we st = .halt e st₂ →
      (∀ v, st₂.last_category = some v → noEdgeWS v = true) ∧
      (∀ row ∈ st₂.accepted, noEdgeWS row.question = true ∧
        noEdgeWS row.answer = true ∧ noEdgeWS row.category = true)) := by
  constructor
  · intro st₂ hstep
    rcases session_step_next_cases hstep with ⟨_, hacc, hlast⟩
      | ⟨row, _, hacc, hlast, ⟨sq, hsq⟩, _, ⟨sa, hsa⟩, _, _, hcat⟩
    · rw [hacc, hlast]
      exact ⟨hl, ha⟩
    · have hrow : noEdgeWS row.question = true ∧ noEdgeWS row.answer = true ∧
          noEdgeWS row.category = true := by
        refine ⟨?_, ?_, ?_⟩
        · rw [hsq]
          exact noEdgeWS_pstrip sq
        · rw [hsa]
          exact noEdgeWS_pstrip sa
        · rcases hcat with ⟨sc, hsc⟩ | hprev
          · rw [hsc]
            exact noEdgeWS_pstrip sc
          · exact hl row.category hprev
      constructor
      · intro v hv
        rw [hlast] at hv
        cases hv
        exact hrow.2.2
      · intro r hr
        rw [hacc] at hr
        rcases List.mem_append.mp hr with hr | hr
        · exact ha r hr
        · have : r = row := by simpa using hr
          subst this
          exact hrow
  · intro e st₂ hstep
    rcases session_step_halt_frame hstep with ⟨_, hacc, hlast⟩
    rw [hacc, hlast]
    exact ⟨hl, ha⟩

/-- The whole loop preserves the stripped invariant. -/
theorem session_loop_stripped (we : WhenExisting) (fuel : Nat) (st : LoopState)
    (hl : ∀ v, st.last_category = some v → noEdgeWS v = true)
    (ha : ∀ row ∈ st.accepted, noEdgeWS row.question = true ∧
      noEdgeWS row.answer = true ∧ noEdgeWS row.category = true) :
    ∀ row ∈ (session_loop we fuel st).2.accepted, noEdgeWS row.question = true ∧
      noEdgeWS row.answer = true ∧ noEdgeWS row.category = true := by
  induction fuel generalizing st with
  | zero => exact ha
  | succ n ih =>
    unfold session_loop
    cases hstep : session_step we st with
    | next st₂ =>
      rcases (session_step_preserves_stripped hl ha).1 st₂ hstep with ⟨hl₂, ha₂⟩
      exact ih st₂ hl₂ ha₂
    | halt e st₂ =>
      rcases (session_step_preserves_stripped hl ha).2 e st₂ hstep with ⟨_, ha₂⟩
      cases e <;> exact ha₂

/-- C5: when the session ends with a clean end-of-input, the committed
database is the initial one plus exactly the accepted rows — one dict_tbl row
and one default learn_tbl row per fully accepted cycle; when it ends with a
keyboard interrupt, the committed database is exactly the initial one. -/
theorem clean_eof_commits_interrupt_discards (fuel : Nat) (disk : Database)
    (we : WhenExisting) (c : Console) :
    ((ask_for_entries fuel disk we c).outcome = .eofEnd →
      (ask_for_entries fuel disk we c).disk.dict_tbl
          = disk.dict_tbl ++ (ask_for_entries fuel disk we c).state.accepted ∧
      (ask_for_entries fuel disk we c).disk.learn_tbl
          = disk.learn_tbl
              ++ (ask_for_entries fuel disk we c).state.accepted.map
                  (fun _ => defaultLearnRow) ∧
      (ask_for_entries fuel disk we c).disk.dict_tbl.length
          = disk.dict_tbl.length
              + (ask_for_entries fuel disk we c).state.accepted.length ∧
      (ask_for_entries fuel disk we c).disk.learn_tbl.length
          = disk.learn_tbl.length
              + (ask_for_entries fuel disk we c).state.accepted.length) ∧
    ((ask_for_entries fuel disk we c).outcome = .intrEnd →
      (ask_for_entries fuel disk we c).disk = disk) := by
  have hinv := session_loop_dbinv we fuel (init_state disk c)
    disk.dict_tbl disk.learn_tbl (by simp [init_state]) (by simp [init_state])
  unfold ask_for_entries
  rcases hloop : session_loop we fuel (init_state disk c) with ⟨e, st⟩
  rw [hloop] at hinv
  cases e with
  | eofEnd =>
    dsimp only
    constructor
    · intro _
      refine ⟨hinv.1, hinv.2, ?_, ?_⟩
      · rw [congrArg List.length hinv.1]
        simp
      · rw [congrArg List.length hinv.2]
        simp
    · intro hcontr
      simp at hcontr
  | intrEnd =>
    dsimp only
    constructor
    · intro hcontr
      simp at hcontr
    · intro _
      rfl
  | fuelOut =>
    dsimp only
    constructor
    · intro hcontr
      simp at hcontr
    · intro hcontr
      simp at hcontr

/-- Witness for clean_eof_commits_interrupt_discards: one accepted cycle then
Ctrl+D commits it, and the same cycle followed by Ctrl+C commits nothing. -/
theorem clean_eof_commits_interrupt_discards_witness :
    ((ask_for_entries 3 ⟨[], []⟩ .EXISTING_ADD
        ⟨[.text "hi", .text "ho", .text "cat"], []⟩).disk.dict_tbl
      = [] ++ (ask_for_entries 3 ⟨[], []⟩ .EXISTING_ADD
        ⟨[.text "hi", .text "ho", .text "cat"], []⟩).state.accepted ∧
      (ask_for_entries 3 ⟨[], []⟩ .EXISTING_ADD
        ⟨[.text "hi", .text "ho", .text "cat"], []⟩).disk.learn_tbl
      = [] ++ (ask_for_entries 3 ⟨[], []⟩ .EXISTING_ADD
        ⟨[.text "hi", .text "ho", .text "cat"], []⟩).state.accepted.map
          (fun _ => defaultLearnRow) ∧
      (ask_for_entries 3 ⟨[], []⟩ .EXISTING_ADD
        ⟨[.text "hi", .text "ho", .text "cat"], []⟩).disk.dict_tbl.length
      = 0 + (ask_for_entries 3 ⟨[], []⟩ .EXISTING_ADD
        ⟨[.text "hi", .text "ho", .text "cat"], []⟩).state.accepted.length ∧
      (ask_for_entries 3 ⟨[], []⟩ .EXISTING_ADD
        ⟨[.text "hi", .text "ho", .text "cat"], []⟩).disk.learn_tbl.length
      = 0 + (ask_for_entries 3 ⟨[], []⟩ .EXISTING_ADD
        ⟨[.text "hi", .text "ho", .text "cat"], []⟩).state.accepted.length) ∧
    ((ask_for_entries 3 ⟨[], []⟩ .EXISTING_ADD
        ⟨[.text "hi", .text "ho", .text "cat", .ctrlC], []⟩).disk = ⟨[], []⟩) :=
  ⟨(clean_eof_commits_interrupt_discards 3 ⟨[], []⟩ .EXISTING_ADD
      ⟨[.text "hi", .text "ho", .text "cat"], []⟩).1 (by rfl),
   (clean_eof_commits_interrupt_discards 3 ⟨[], []⟩ .EXISTING_ADD
      ⟨[.text "hi", .text "ho", .text "cat", .ctrlC], []⟩).2 (by rfl)⟩

/-- C6: the last-accepted-category state starts empty; an empty input at the
category prompt turns the previous category into the candidate; a loop
iteration either leaves the state untouched (restart or rejection) or accepts
a row and updates the state to that row's category. -/
theorem category_default_and_last_category (disk : Database) (c : Console) :
    ((init_state disk c).last_category = none) ∧
    (∀ (s : String) (lc : Option String), pstrip s = "" →
      category_candidate s lc = lc) ∧
    (∀ (we : WhenExisting) (st st₂ : LoopState), session_step we st = .next st₂ →
      (st₂.accepted = st.accepted ∧ st₂.last_category = st.last_category) ∨
      (∃ row, st₂.accepted = st.accepted ++ [row] ∧
        st₂.last_category = some row.category)) := by
  refine ⟨rfl, ?_, ?_⟩
  · intro s lc h
    simp [category_candidate, h]
  · intro we st st₂ hstep
    rcases session_step_next_cases hstep with ⟨_, hacc, hlast⟩
      | ⟨row, _, hacc, hlast, _⟩
    · left
      exact ⟨hacc, hlast⟩
    · right
      exact ⟨row, hacc, hlast⟩

/-- Witness for category_default_and_last_category at concrete inputs: the
initial state of some session, the default substitution on a blank line, and
a concrete accepted step that updates the last category. -/
theorem category_default_and_last_category_witness :
    (init_state ⟨[], []⟩ ⟨[], []⟩).last_category = none ∧
    category_candidate " " (some "cat") = some "cat" ∧
    ((w6st₂.accepted = w6st.accepted ∧
        w6st₂.last_category = w6st.last_category) ∨
      (∃ row, w6st₂.accepted = w6st.accepted ++ [row] ∧
        w6st₂.last_category = some row.category)) :=
  ⟨(category_default_and_last_category ⟨[], []⟩ ⟨[], []⟩).1,
   (category_default_and_last_category ⟨[], []⟩ ⟨[], []⟩).2.1 " " (some "cat")
      (by decide),
   (category_default_and_last_category ⟨[], []⟩ ⟨[], []⟩).2.2 .EXISTING_ADD
      w6st w6st₂ (by rfl)⟩

/-- C10: every row accepted (and hence inserted) during a session has no
leading or trailing whitespace in its question, answer or category. -/
theorem inserted_rows_are_stripped (fuel : Nat) (disk : Database)
    (we : WhenExisting) (c : Console) :
    ∀ row ∈ (ask_for_entries fuel disk we c).state.accepted,
      noEdgeWS row.question = true ∧ noEdgeWS row.answer = true ∧
      noEdgeWS row.category = true := by
  have hloop := session_loop_stripped we fuel (init_state disk c)
    (by intro v hv; simp [init_state] at hv)
    (by intro r hr; simp [init_state] at hr)
  unfold ask_for_entries
  rcases hl : session_loop we fuel (init_state disk c) with ⟨e, st⟩
  rw [hl] at hloop
  cases e <;> exact hloop

/-- Witness for inserted_rows_are_stripped: a concrete session whose inputs
carry surrounding whitespace still stores stripped rows only. -/
theorem inserted_rows_are_stripped_witness :
    noEdgeWS (DictRow.mk "hi" "ho" "cat").question = true ∧
    noEdgeWS (DictRow.mk "hi" "ho" "cat").answer = true ∧
    noEdgeWS (DictRow.mk "hi" "ho" "cat").category = true :=
  inserted_rows_are_stripped 3 ⟨[], []⟩ .EXISTING_ADD
    ⟨[.text " hi ", .text "ho ", .text " cat"], []⟩ ⟨"hi", "ho", "cat"⟩
    (by decide)

/-- C7: the duplicate checks in ask_for_question and ask_for_answer leave the
database unchanged (they only run SELECTs), and under policy ASK with matches
present the confirmation prompt is built by question_msg and answer_msg from
the paired opposite field of the first matching row. -/
theorem duplicate_check_reads_only (db : Database) (we : WhenExisting)
    (c : Console) :
    ((ask_for_question db we c).2.1 = db) ∧
    ((ask_for_answer db we c).2.1 = db) ∧
    (∀ (s t : String) (rest : List InputLine) (pr : List String)
        (ans : String) (more : List String),
      (dbSelectAnswersByTrimQuestion db (pstrip s)).2 = ans :: more →
      ask_for_question db .EXISTING_ASK ⟨.text s :: .text t :: rest, pr⟩
        = ((if yes_like t then .ok (some (pstrip s)) else .ok none), db,
            ⟨rest, pr ++ ["Question: ",
              question_msg (pstrip s) (ans :: more) ++ " [y/n] "]⟩) ∧
      question_msg (pstrip s) (ans :: more)
        = "Question " ++ quot1 ++ pstrip s ++ quot1
            ++ " seems to exist already, with answer " ++ quot1 ++ ans ++ quot1
            ++ ". Proceed?") ∧
    (∀ (s t : String) (rest : List InputLine) (pr : List String)
        (qst : String) (more : List String),
      (dbSelectQuestionsByTrimAnswer db (pstrip s)).2 = qst :: more →
      ask_for_answer db .EXISTING_ASK ⟨.text s :: .text t :: rest, pr⟩
        = ((if yes_like t then .ok (some (pstrip s)) else .ok none), db,
            ⟨rest, pr ++ ["Answer: ",
              answer_msg (pstrip s) (qst :: more) ++ " [y/n] "]⟩) ∧
      answer_msg (pstrip s) (qst :: more)
        = "Answer " ++ quot1 ++ pstrip s ++ quot1
            ++ " seems to exist already, with question " ++ quot1 ++ qst ++ quot1
            ++ ". Proceed?") := by
  refine ⟨ask_for_question_db_frame db we c, ask_for_answer_db_frame db we c,
    ?_, ?_⟩
  · intro s t rest pr ans more hrows
    constructor
    · unfold ask_for_question
      simp only [pyInput]
      rw [hrows]
      simp only [List.isEmpty_cons, Bool.not_false]
      rw [check_existing_ask_conflict_run]
      simp [dbSelectAnswersByTrimQuestion, dbSelectQuestionsByTrimAnswer]
    · rfl
  · intro s t rest pr qst more hrows
    constructor
    · unfold ask_for_answer
      simp only [pyInput]
      rw [hrows]
      simp only [List.isEmpty_cons, Bool.not_false]
      rw [check_existing_ask_conflict_run]
      simp [dbSelectAnswersByTrimQuestion, dbSelectQuestionsByTrimAnswer]
    · rfl

/-- Witness for duplicate_check_reads_only: on a database holding
("toe", "un orteil"), asking "toe" under ASK prompts with the paired answer
"un orteil", and replying "n" rejects while leaving the database unchanged. -/
theorem duplicate_check_reads_only_witness :
    ask_for_question w7db .EXISTING_ASK ⟨[.text "toe", .text "n"], []⟩
      = ((if yes_like "n" then .ok (some (pstrip "toe")) else .ok none), w7db,
          ⟨[], ["Question: ",
            question_msg (pstrip "toe") ("un orteil" :: []) ++ " [y/n] "]⟩) :=
  ((duplicate_check_reads_only w7db .EXISTING_ASK ⟨[], []⟩).2.2.1
    "toe" "n" [] [] "un orteil" [] (by decide)).1

/-- Left-to-right option processing: the when_existing dest ends up holding
the mode of the last mode flag, or its starting value with no mode flag. -/
theorem parse_foldl_mode (args : List CliOption) : ∀ o : Opts,
    (List.foldl (fun o a =>
      match a with
      | CliOption.database p => { o with database := p }
      | CliOption.force => { o with when_existing := .EXISTING_ADD }
      | CliOption.skip_existing => { o with when_existing := .EXISTING_SKIP }
      | CliOption.verbose => { o with verbose := true }) o args).when_existing
      = (args.filterMap modeOf).getLastD o.when_existing := by
  induction args with
  | nil =>
    intro o
    rfl
  | cons a rest ih =>
    intro o
    cases a with
    | database p =>
      simp only [List.foldl_cons, List.filterMap_cons, modeOf]
      exact ih _
    | force =>
      simp only [List.foldl_cons, List.filterMap_cons, modeOf]
      rw [List.getLastD_cons]
      exact ih _
    | skip_existing =>
      simp only [List.foldl_cons, List.filterMap_cons, modeOf]
      rw [List.getLastD_cons]
      exact ih _
    | verbose =>
      simp only [List.foldl_cons, List.filterMap_cons, modeOf]
      exact ih _

/-- C8: for every command line, the session's conflict mode is the one of the
last-specified mode flag (ADD for -f, SKIP for -s), and ASK when neither flag
appears. -/
theorem conflict_mode_last_specified_wins (args : List CliOption) :
    (parse_args args).when_existing = lastSpecifiedMode args := by
  unfold parse_args lastSpecifiedMode
  exact parse_foldl_mode args _

/-- C9: the category completer never holds duplicate names: initialisation
loads the distinct categories, add_category preserves the invariant, and under
the invariant prefix completion returns each category for at most one state
index. -/
theorem completer_categories_nodup :
    (∀ db : Database, (CategoryCompleter.init db).categories.Nodup) ∧
    (∀ (cc : CategoryCompleter) (n : String), cc.categories.Nodup →
      (cc.add_category n).categories.Nodup) ∧
    (∀ (cc : CategoryCompleter) (t : String) (i j : Nat) (v : String),
      cc.categories.Nodup → cc.complete t i = some v →
      cc.complete t j = some v → i = j) := by
  refine ⟨?_, ?_, ?_⟩
  · intro db
    exact List.nodup_dedup _
  · intro cc n h
    unfold CategoryCompleter.add_category
    split
    · rename_i hcond
      simp only [Bool.and_eq_true, bne_iff_ne, Bool.not_eq_true'] at hcond
      refine List.nodup_append.mpr ⟨h, List.nodup_singleton n, ?_⟩
      intro x hx hx2
      have hxn : x = n := by simpa using hx2
      subst hxn
      have hmem : x ∉ cc.categories := by simpa using hcond.2
      exact hmem hx
    · exact h
  · intro cc t i j v h h1 h2
    unfold CategoryCompleter.complete at h1 h2
    obtain ⟨hi, _⟩ := List.get?_eq_some.mp h1
    rw [List.get?_eq_getElem?] at h1 h2
    exact List.getElem?_inj hi (List.Nodup.filter _ h) (h1.trans h2.symm)

/-- Witness for completer_categories_nodup at concrete values. -/
theorem completer_categories_nodup_witness :
    (CategoryCompleter.init ⟨[⟨"q", "a", "cat"⟩, ⟨"r", "b", "cat"⟩], []⟩).categories.Nodup ∧
    (CategoryCompleter.mk ["cat"]).add_category "cat" = ⟨["cat"]⟩ ∧
    ((CategoryCompleter.mk ["ca", "cb"]).add_category "ca").categories.Nodup :=
  ⟨completer_categories_nodup.1 ⟨[⟨"q", "a", "cat"⟩, ⟨"r", "b", "cat"⟩], []⟩,
   by decide,
   completer_categories_nodup.2.1 ⟨["ca", "cb"]⟩ "ca" (by decide)⟩

/-- Counterexample to C4 as stated: in the concrete ASK session over
c4_script, the empty category input of cycle 3 (script line 10) does not
restart the cycle — the entry ("q3", "a3") is inserted with the previous
category "cat1" — and the empty category input of cycle 1 does trigger a
confirmation prompt (about the missing category "None") even though the
candidate is empty. -/
theorem empty_input_restart_counterexample :
    (ask_for_entries 6 c4_db .EXISTING_ASK ⟨c4_script, []⟩).state.accepted
        = [⟨"q2", "a2", "cat1"⟩, ⟨"q3", "a3", "cat1"⟩] ∧
    ((ask_for_entries 6 c4_db .EXISTING_ASK ⟨c4_script, []⟩).state.console.prompts).contains
        (category_msg none ++ " [y/n] ") = true ∧
    c4_script.get? 9 = some (.text "") := by
  refine ⟨by decide, by decide, by decide⟩

/-- C4 (amended): an empty input at the question or answer prompt yields no
accepted value and the collector restarts the cycle without touching the
database or the accepted entries; an empty input at the category prompt makes
the previous cycle's accepted category the candidate when one exists, and when
none exists the candidate is never accepted and the cycle restarts without
inserting — although under policy ASK a confirmation prompt about the missing
category is still shown. -/
theorem empty_input_restart_semantics :
    (∀ (db : Database) (we : WhenExisting) (s : String) (rest : List InputLine)
        (pr : List String) (v : Option String) (db₁ : Database) (c₁ : Console),
      pstrip s = "" →
      ask_for_question db we ⟨.text s :: rest, pr⟩ = (.ok v, db₁, c₁) →
      optStrTruthy v = false) ∧
    (∀ (db : Database) (we : WhenExisting) (s : String) (rest : List InputLine)
        (pr : List String) (v : Option String) (db₁ : Database) (c₁ : Console),
      pstrip s = "" →
      ask_for_answer db we ⟨.text s :: rest, pr⟩ = (.ok v, db₁, c₁) →
      optStrTruthy v = false) ∧
    (∀ (s : String) (lc : Option String), pstrip s = "" →
      category_candidate s lc = lc) ∧
    (∀ (db : Database) (comp : CategoryCompleter) (we : WhenExisting)
        (s : String) (rest : List InputLine) (pr : List String)
        (v : Option String) (db₁ : Database) (comp₁ : CategoryCompleter)
        (c₁ : Console),
      pstrip s = "" →
      ask_for_category db comp we none ⟨.text s :: rest, pr⟩
        = (.ok v, db₁, comp₁, c₁) →
      v = none) ∧
    (∀ (we : WhenExisting) (st : LoopState) (v : Option String)
        (db₁ : Database) (c₁ : Console),
      ask_for_question st.db we st.console = (.ok v, db₁, c₁) →
      optStrTruthy v = false →
      session_step we st = .next { st with db := db₁, console := c₁ }) ∧
    (∀ (we : WhenExisting) (st : LoopState) (q : String) (db₁ : Database)
        (c₁ : Console) (v : Option String) (db₂ : Database) (c₂ : Console),
      ask_for_question st.db we st.console = (.ok (some q), db₁, c₁) → q ≠ "" →
      ask_for_answer db₁ we c₁ = (.ok v, db₂, c₂) → optStrTruthy v = false →
      session_step we st = .next { st with db := db₂, console := c₂ }) ∧
    (∀ (we : WhenExisting) (st : LoopState) (q : String) (db₁ : Database)
        (c₁ : Console) (a : String) (db₂ : Database) (c₂ : Console)
        (v : Option String) (db₃ : Database) (comp₃ : CategoryCompleter)
        (c₃ : Console),
      ask_for_question st.db we st.console = (.ok (some q), db₁, c₁) → q ≠ "" →
      ask_for_answer db₁ we c₁ = (.ok (some a), db₂, c₂) → a ≠ "" →
      ask_for_category db₂ st.completer we st.last_category c₂
        = (.ok v, db₃, comp₃, c₃) →
      optStrTruthy v = false →
      session_step we st
        = .next { st with db := db₃, completer := comp₃, console := c₃ }) ∧
    (∀ (db : Database) (comp : CategoryCompleter) (s t : String)
        (rest : List InputLine) (pr : List String),
      pstrip s = "" →
      (ask_for_category db comp .EXISTING_ASK none
          ⟨.text s :: .text t :: rest, pr⟩).2.2.2.prompts
        = pr ++ [category_prompt none, category_msg none ++ " [y/n] "]) := by
  refine ⟨?_, ?_, ?_, ?_, ?_, ?_, ?_, ?_⟩
  · intro db we s rest pr v db₁ c₁ hs h
    unfold ask_for_question at h
    simp only [pyInput] at h
    have h1 := congrArg Prod.fst h
    dsimp only at h1
    rcases check_existing_fst_ok_shape h1 with h0 | h0
    · subst h0
      simp [optStrTruthy, hs]
    · subst h0
      rfl
  · intro db we s rest pr v db₁ c₁ hs h
    unfold ask_for_answer at h
    simp only [pyInput] at h
    have h1 := congrArg Prod.fst h
    dsimp only at h1
    rcases check_existing_fst_ok_shape h1 with h0 | h0
    · subst h0
      simp [optStrTruthy, hs]
    · subst h0
      rfl
  · intro s lc hs
    simp [category_candidate, hs]
  · intro db comp we s rest pr v db₁ comp₁ c₁ hs h
    unfold ask_for_category at h
    simp only [pyInput] at h
    have hcand : category_candidate s none = none := by
      simp [category_candidate, hs]
    rw [hcand] at h
    simp only [dbCountCategory] at h
    split at h
    · simp at h
    · simp at h
    · rename_i r c₂ hce
      split at h
      · rcases check_existing_ok_shape hce with h0 | h0 <;> simp at h0
      · cases h
        rfl
  · intro we st v db₁ c₁ h hf
    unfold session_step
    rw [h]
    cases v with
    | none => rfl
    | some q =>
      have hq : q = "" := by simpa [optStrTruthy] using hf
      subst hq
      rfl
  · intro we st q db₁ c₁ v db₂ c₂ hq hqe ha hf
    unfold session_step
    rw [hq]
    have hqb : (q == "") = false := by simpa using hqe
    dsimp only
    rw [hqb]
    simp only [Bool.false_eq_true, if_false]
    rw [ha]
    cases v with
    | none => rfl
    | some a =>
      have haq : a = "" := by simpa [optStrTruthy] using hf
      subst haq
      rfl
  · intro we st q db₁ c₁ a db₂ c₂ v db₃ comp₃ c₃ hq hqe ha hae hc hf
    unfold session_step
    rw [hq]
    have hqb : (q == "") = false := by simpa using hqe
    dsimp only
    rw [hqb]
    simp only [Bool.false_eq_true, if_false]
    rw [ha]
    have hab : (a == "") = false := by simpa using hae
    dsimp only
    rw [hab]
    simp only [Bool.false_eq_true, if_false]
    rw [hc]
    cases v with
    | none => rfl
    | some cat =>
      have hcq : cat = "" := by simpa [optStrTruthy] using hf
      subst hcq
      rfl
  · intro db comp s t rest pr hs
    unfold ask_for_category
    simp only [pyInput]
    have hcand : category_candidate s none = none := by
      simp [category_candidate, hs]
    rw [hcand]
    simp only [dbCountCategory]
    rw [show ((0 : Nat) == 0) = true from rfl]
    rw [check_existing_ask_conflict_run]
    cases hyl : yes_like t <;> simp

/-- Witness for empty_input_restart_semantics: every component applied at a
concrete input with its hypotheses discharged by computation. -/
theorem empty_input_restart_semantics_witness :
    optStrTruthy none = false ∧
    optStrTruthy none = false ∧
    category_candidate "" (some "cat1") = some "cat1" ∧
    (none : Option String) = none ∧
    session_step .EXISTING_ADD w4st1
      = .next { w4st1 with db := ⟨[], []⟩, console := ⟨[], ["Question: "]⟩ } ∧
    session_step .EXISTING_ADD w4st2
      = .next { w4st2 with db := ⟨[], []⟩, console := ⟨[], ["Question: ", "Answer: "]⟩ } ∧
    session_step .EXISTING_ADD w4st3
      = .next { w4st3 with db := ⟨[], []⟩, completer := ⟨[]⟩, console := ⟨[], ["Question: ", "Answer: ", "Category: "]⟩ } ∧
    (ask_for_category ⟨[], []⟩ ⟨[]⟩ .EXISTING_ASK none
        ⟨[.text " ", .text "y"], []⟩).2.2.2.prompts
      = [] ++ [category_prompt none, category_msg none ++ " [y/n] "] :=
  ⟨empty_input_restart_semantics.1 ⟨[], []⟩ .EXISTING_ADD " " [] [] none
      ⟨[], []⟩ ⟨[], ["Question: "]⟩ (by decide) (by decide),
   empty_input_restart_semantics.2.1 ⟨[], []⟩ .EXISTING_ADD " " [] [] none
      ⟨[], []⟩ ⟨[], ["Answer: "]⟩ (by decide) (by decide),
   empty_input_restart_semantics.2.2.1 "" (some "cat1") (by decide),
   empty_input_restart_semantics.2.2.2.1 ⟨[], []⟩ ⟨[]⟩ .EXISTING_ADD "" [] []
      none ⟨[], []⟩ ⟨[]⟩ ⟨[], ["Category: "]⟩ (by decide) (by decide),
   empty_input_restart_semantics.2.2.2.2.1 .EXISTING_ADD w4st1 none ⟨[], []⟩
      ⟨[], ["Question: "]⟩ (by decide) (by decide),
   empty_input_restart_semantics.2.2.2.2.2.1 .EXISTING_ADD w4st2 "q" ⟨[], []⟩
      ⟨[.text " "], ["Question: "]⟩ none ⟨[], []⟩
      ⟨[], ["Question: ", "Answer: "]⟩ (by decide) (by decide) (by decide)
      (by decide),
   empty_input_restart_semantics.2.2.2.2.2.2.1 .EXISTING_ADD w4st3 "q"
      ⟨[], []⟩ ⟨[.text "a", .text " "], ["Question: "]⟩ "a" ⟨[], []⟩
      ⟨[.text " "], ["Question: ", "Answer: "]⟩ none ⟨[], []⟩ ⟨[]⟩
      ⟨[], ["Question: ", "Answer: ", "Category: "]⟩ (by decide) (by decide)
      (by decide) (by decide) (by decide) (by decide),
   empty_input_restart_semantics.2.2.2.2.2.2.2 ⟨[], []⟩ ⟨[]⟩ " " "y" [] []
      (by decide)⟩
